import Mathlib

/-
  Verification development for the multi_sokoban planner
  (src/multi_sokoban: bdi.py, heuristics.py, emergency_aStar.py, searchclient.py).

  The Python modules actions.py, strategy.py, memory.py and utils.py are not part
  of the sources; the operations the embedded code needs from them are modelled
  from the specification and marked as such in their doc comments.
-/

namespace MultiSokoban

/-- Positions are integer (row, col) pairs. -/
abbrev Pos := Int × Int

/-- Manhattan distance (heuristics.manha_dist). -/
def manha_dist (a b : Pos) : Int :=
  ((a.1 - b.1).natAbs : Int) + ((a.2 - b.2).natAbs : Int)

/-- Modelled from the spec: utils.STATUS, the agent lifecycle states Init, Ok, Fail. -/
inductive Status
  | init
  | ok
  | fail
deriving DecidableEq, Repr

/-- Runtime error kinds the embedded Python code can raise. -/
inductive PyErr
  | typeError
  | indexError
  | nameError
  | valueError
  | attributeError
  | incorrectTask
  | resourceLimit
  | blocked
  | outOfFuel
deriving DecidableEq, Repr

/-- Decidable equality of Except results, used to evaluate the embedded code on
concrete inputs. -/
instance {ε α : Type} [DecidableEq ε] [DecidableEq α] : DecidableEq (Except ε α) :=
  fun a b =>
    match a, b with
    | Except.error e, Except.error f =>
      if h : e = f then Decidable.isTrue (congrArg Except.error h)
      else Decidable.isFalse (fun c => h (Except.error.inj c))
    | Except.ok x, Except.ok y =>
      if h : x = y then Decidable.isTrue (congrArg Except.ok h)
      else Decidable.isFalse (fun c => h (Except.ok.inj c))
    | Except.error _, Except.ok _ => Decidable.isFalse (fun c => Except.noConfusion c)
    | Except.ok _, Except.error _ => Decidable.isFalse (fun c => Except.noConfusion c)

/-- An object mapping: ordered dictionary from key to a list of (position, color). -/
abbrev ObjMap := List (String × List (Pos × String))

/-- Modelled from the spec: actions.StateInit, the state snapshot, restricted to the
fields the embedded code reads (goals, agents, boxes as ordered key maps, path cost g,
logical time t, the explored set decoded to object dictionaries, and the overlay that
actions.StateConcurrent adds). -/
structure Task where
  goals : ObjMap
  agents : ObjMap
  boxes : ObjMap
  g : Int := 0
  t : Int := 0
  explored : List (List (String × List (Pos × String))) := []
  concurrent : Option (List (Nat × (Option String × Pos))) := none
deriving DecidableEq, Repr

/-- Modelled from the spec: actions.StateInit.getGoalKeys, the goal dictionary keys. -/
def Task.getGoalKeys (s : Task) : List String :=
  s.goals.map Prod.fst

/-- Modelled from the spec: actions.StateInit.getGoalsByKey, lookup in the goals map. -/
def Task.getGoalsByKey (s : Task) (k : String) : List (Pos × String) :=
  (((s.goals.find? (fun kv => kv.1 == k)).map Prod.snd).getD [])

/-- Modelled from the spec: actions.StateInit.getBoxesByKey, lookup in the boxes map. -/
def Task.getBoxesByKey (s : Task) (k : String) : List (Pos × String) :=
  (((s.boxes.find? (fun kv => kv.1 == k)).map Prod.snd).getD [])

/-- Modelled from the spec: actions.StateInit.agentColor, the colors of the agents
(first entry of each agent key). -/
def Task.agentColor (s : Task) : List String :=
  s.agents.filterMap (fun kv => kv.2.head?.map Prod.snd)

/-- Modelled from the spec: actions.StateInit.getAgentsByColor, the agent keys whose
first entry has the given color. -/
def Task.getAgentsByColor (s : Task) (c : String) : List String :=
  (s.agents.filter (fun kv => kv.2.head?.map Prod.snd == some c)).map Prod.fst

/-- Modelled from the spec: actions.StateInit.getAgentsByKey, lookup in the agents map. -/
def Task.getAgentsByKey (s : Task) (k : String) : List (Pos × String) :=
  (((s.agents.find? (fun kv => kv.1 == k)).map Prod.snd).getD [])

/-- Modelled from the spec: actions.StateInit.addGoal appends (pos, color) under the key. -/
def Task.addGoal (s : Task) (k : String) (p : Pos) (c : String) : Task :=
  if s.goals.any (fun kv => kv.1 == k) then
    { s with goals := s.goals.map (fun kv => if kv.1 == k then (kv.1, kv.2 ++ [(p, c)]) else kv) }
  else
    { s with goals := s.goals ++ [(k, [(p, c)])] }

/-- Modelled from the spec: actions.StateInit.forget_exploration resets the explored set. -/
def Task.forget_exploration (s : Task) : Task :=
  { s with explored := [] }

/-- Modelled from the spec: actions.StateInit.Neighbour, 4-adjacency on the grid. -/
def Task.neighbour (p q : Pos) : Bool :=
  manha_dist p q == 1

/-- Python str.lower restricted to the ASCII keys used here. -/
def pyLower (s : String) : String :=
  String.mk (s.data.map Char.toLower)

/-- Minimum of a list of integers; the Python min of a nonempty list. -/
def listMin : List Int → Int
  | [] => 0
  | x :: xs => xs.foldl min x

/-- Sum of a list of integers; the Python sum. -/
def listSum (l : List Int) : Int :=
  l.foldl (· + ·) 0

/-- The agent-to-box distances appended for one box
(the inner agent loop shared verbatim by EasyRule and WeightedRule in heuristics.py):
for each agent key of the goal color, the Manhattan distance from the agent's first
position to the box. -/
def agentBoxDists (s : Task) (goal_color : String) (box_pos : Pos) : List Int :=
  (s.getAgentsByColor goal_color).foldl
    (fun l ak =>
      match (s.getAgentsByKey ak).head? with
      | some e => l ++ [manha_dist e.1 box_pos]
      | none => l)
    []

/-- One box iteration of heuristics.EasyRule: returns (agent-box distances appended,
box-goal distances appended).  The zero-distance continue only fires inside the
agent-color guard, mirroring the source. -/
def easyRuleBoxStep (s : Task) (goal_pos : Pos) (goal_color : String) (box_pos : Pos) :
    List Int × List Int :=
  if (Task.agentColor s).contains goal_color then
    if manha_dist goal_pos box_pos = 0 then ([], [])
    else (agentBoxDists s goal_color box_pos, [manha_dist box_pos goal_pos])
  else
    ([], [manha_dist box_pos goal_pos])

/-- One box iteration of heuristics.WeightedRule: the agent-color guard of EasyRule is
absent and the zero-distance continue always fires. -/
def weightedRuleBoxStep (s : Task) (goal_pos : Pos) (goal_color : String) (box_pos : Pos) :
    List Int × List Int :=
  if manha_dist goal_pos box_pos = 0 then ([], [])
  else (agentBoxDists s goal_color box_pos, [manha_dist box_pos goal_pos])

/-- One goal iteration of heuristics.EasyRule: fold the boxes, then contribute the
minimum box-goal distance when any was collected. -/
def easyRuleGoalStep (s : Task) (box_params : List (Pos × String)) (gp : Pos × String) :
    Int × List Int :=
  let r := box_params.foldl
    (fun acc bp =>
      let st := easyRuleBoxStep s gp.1 gp.2 bp.1
      (acc.1 ++ st.1, acc.2 ++ st.2))
    ([], [])
  (if r.2 = [] then 0 else listMin r.2, r.1)

/-- One goal iteration of heuristics.WeightedRule: as EasyRule but the minimum is
multiplied by 10 when the goal key lower-cased equals the stored weight. -/
def weightedRuleGoalStep (w : Option String) (s : Task) (k : String)
    (box_params : List (Pos × String)) (gp : Pos × String) : Int × List Int :=
  let r := box_params.foldl
    (fun acc bp =>
      let st := weightedRuleBoxStep s gp.1 gp.2 bp.1
      (acc.1 ++ st.1, acc.2 ++ st.2))
    ([], [])
  (if r.2 = [] then 0
   else
     let bc := listMin r.2
     if some (pyLower k) = w then bc * 10 else bc,
   r.1)

/-- One goal-key iteration of heuristics.EasyRule.  The accumulator carries
(box_goal_cost, agt_box_cost, agt_box_costs); the agt_box_costs list is never reset
between keys, and each key re-sums the whole list, exactly as in the source. -/
def easyRuleKeyStep (s : Task) (acc : Int × Int × List Int) (k : String) :
    Int × Int × List Int :=
  let goal_params := s.getGoalsByKey k
  let box_params := s.getBoxesByKey k
  let r := goal_params.foldl
    (fun a gp =>
      let st := easyRuleGoalStep s box_params gp
      (a.1 + st.1, a.2 ++ st.2))
    (0, [])
  let agt_box_costs := acc.2.2 ++ r.2
  let agt_box_cost := if agt_box_costs = [] then acc.2.1 else acc.2.1 + listSum agt_box_costs
  (acc.1 + r.1, agt_box_cost, agt_box_costs)

/-- One goal-key iteration of heuristics.WeightedRule, same accumulator discipline. -/
def weightedRuleKeyStep (w : Option String) (s : Task) (acc : Int × Int × List Int)
    (k : String) : Int × Int × List Int :=
  let goal_params := s.getGoalsByKey k
  let box_params := s.getBoxesByKey k
  let r := goal_params.foldl
    (fun a gp =>
      let st := weightedRuleGoalStep w s k box_params gp
      (a.1 + st.1, a.2 ++ st.2))
    (0, [])
  let agt_box_costs := acc.2.2 ++ r.2
  let agt_box_cost := if agt_box_costs = [] then acc.2.1 else acc.2.1 + listSum agt_box_costs
  (acc.1 + r.1, agt_box_cost, agt_box_costs)

/-- heuristics.EasyRule.__call__ on one state: the value written to state.h. -/
def easyRuleH (s : Task) : Int :=
  let r := (s.getGoalKeys).foldl (easyRuleKeyStep s) (0, 0, [])
  r.1 + r.2.1

/-- heuristics.EasyRule.__call__ on one state: the value written to state.f,
namely h * 5 + g. -/
def easyRuleF (s : Task) : Int :=
  easyRuleH s * 5 + s.g

/-- heuristics.WeightedRule.__call__ on one state: the value written to state.h.
The stored weight is the object_problem of the consumed message (None possible). -/
def weightedRuleH (w : Option String) (s : Task) : Int :=
  let r := (s.getGoalKeys).foldl (weightedRuleKeyStep w s) (0, 0, [])
  r.1 + r.2.1

/-- heuristics.WeightedRule.__call__ on one state: the value written to state.f. -/
def weightedRuleF (w : Option String) (s : Task) : Int :=
  weightedRuleH w s * 5 + s.g

/-- bdi.Message: an SOS query (status Fail, no time) or a response (status Ok with a
(t, position) timeline). -/
structure Message where
  object_problem : Option String
  color : Option String
  requester : String
  status : Status
  time : Option (List (Nat × Pos))
deriving DecidableEq, Repr

/-- bdi.Message.__init__: an Ok message without a time raises IncorrectTask. -/
def mkMessage (op : Option String) (c : Option String) (req : String) (st : Status)
    (time : Option (List (Nat × Pos))) : Except PyErr Message :=
  if st = Status.ok ∧ time = none then Except.error PyErr.incorrectTask
  else Except.ok ⟨op, c, req, st, time⟩

/-- The heuristic object an Agent holds: heuristics.EasyRule or
heuristics.WeightedRule with its stored weight. -/
inductive Heur
  | easyRule
  | weightedRule (w : Option String)
deriving DecidableEq, Repr

/-- The h value the held heuristic writes on a state. -/
def Heur.hval : Heur → Task → Int
  | .easyRule, s => easyRuleH s
  | .weightedRule w, s => weightedRuleH w s

/-- The f value the held heuristic writes on a state. -/
def Heur.fval : Heur → Task → Int
  | .easyRule, s => easyRuleF s
  | .weightedRule w, s => weightedRuleF w s

/-- The value a heuristics call returns to its caller: the rules score states in
place and fall off the end of __call__, so a call on a single state returns None. -/
def Heur.callRet (_h : Heur) (_s : Task) : Option Int :=
  none

/-- bdi.Agent: the fields of Agent.__init__. -/
structure Agent where
  task : Task
  init_task : Task
  heuristic : Heur
  color : String
  name : String
  init_pos : Pos
  status : Status
  helping : Option Message
  saved_solution : Option (List String)
deriving DecidableEq, Repr

/-- bdi.Agent.__init__: color is the first goal entry's color, name the first agent
key, init_pos the first agent's position; empty goals or agents raise IndexError. -/
def mkAgent (task : Task) (heuristic : Option Heur) : Except PyErr Agent :=
  match task.goals.head? with
  | none => Except.error PyErr.indexError
  | some kv =>
    match kv.2.head? with
    | none => Except.error PyErr.indexError
    | some gfirst =>
      match task.agents.head? with
      | none => Except.error PyErr.indexError
      | some akv =>
        match akv.2.head? with
        | none => Except.error PyErr.indexError
        | some afirst =>
          Except.ok
            { task := task
              init_task := task
              heuristic := heuristic.getD Heur.easyRule
              color := gfirst.2
              name := akv.1
              init_pos := afirst.1
              status := Status.init
              helping := none
              saved_solution := none }

/-- bdi.Agent.track_back as called from _identify_problem: collect, over every
explored entry, the first position stored under a key equal to the agent's name
(the body compares against self.name).  Entries with an empty position list would
raise IndexError in Python and are assumed not to occur. -/
def Agent.track_back (a : Agent) : List Pos :=
  a.task.explored.foldl
    (fun trace exp =>
      exp.foldl
        (fun tr od =>
          if od.1 = a.name then
            match od.2.head? with
            | some e => tr ++ [e.1]
            | none => tr
          else tr)
        trace)
    []

/-- bdi.Agent._identify_problem: the boxes whose first entry has a color different
from the agent's, then the first such box 4-adjacent to a traced ancestor position.
Falling through every loop returns None. -/
def Agent.identify_problem (a : Agent) : Option (String × String) :=
  let boxes : List (String × (Pos × String)) :=
    a.task.boxes.filterMap
      (fun kv =>
        match kv.2.head? with
        | some pc => if pc.2 ≠ a.color then some (kv.1, pc) else none
        | none => none)
  let agent_trace := a.track_back
  boxes.findSome?
    (fun bkv =>
      agent_trace.findSome?
        (fun ap =>
          if Task.neighbour bkv.2.1 ap then some (bkv.1, bkv.2.2) else none))

/-- bdi.Agent._sos: the line unpacking _identify_problem's result raises TypeError
when that result is None; otherwise it builds the SOS message (current status, no
time). -/
def Agent.sos (a : Agent) : Except PyErr Message :=
  match a.identify_problem with
  | none => Except.error PyErr.typeError
  | some bc => mkMessage (some bc.1) (some bc.2) a.name a.status none

/-- Modelled from the spec: the black-box operations of the missing actions.py that
the embedded code calls — isGoalState(), explore() successor generation, bestPath()
returning the action path, and its format variant returning a (t, position) timeline
of the named object. -/
structure ActionsApi where
  isGoalState : Task → Bool
  explore : Task → List Task
  bestPath : Task → List String
  bestPathFmt : Task → Option String → List (Nat × Pos)

/-- bdi.Agent._send_success: build the response from the stored help request, with
the agent's current status and the bestPath timeline of the requested object, then
clear the helping flag. -/
def Agent.send_success (api : ActionsApi) (a : Agent) : Except PyErr (Message × Agent) :=
  match a.helping with
  | none => Except.error PyErr.attributeError
  | some m =>
    let time_pos := api.bestPathFmt a.task m.object_problem
    match mkMessage m.object_problem m.color m.requester a.status (some time_pos) with
    | Except.error e => Except.error e
    | Except.ok msg => Except.ok (msg, { a with helping := none })

/-- bdi.Agent.broadcast: when the status is Fail, compute the SOS and reset the
exploration; then, when the agent is helping, overwrite the message with the
success response.  Returns the (at most one) message and the updated agent. -/
def Agent.broadcast (api : ActionsApi) (a : Agent) : Except PyErr (Option Message × Agent) :=
  let step1 : Except PyErr (Option Message × Agent) :=
    if a.status = Status.fail then
      match a.sos with
      | Except.error e => Except.error e
      | Except.ok m => Except.ok (some m, { a with task := a.task.forget_exploration })
    else Except.ok (none, a)
  match step1 with
  | Except.error e => Except.error e
  | Except.ok ma =>
    match ma.2.helping with
    | none => Except.ok ma
    | some _ =>
      match ma.2.send_success api with
      | Except.error e => Except.error e
      | Except.ok msga => Except.ok (some msga.1, msga.2)

/-- bdi.Agent.consume_message.  In status Fail the helper's timeline is compressed
to the events where the position changes and overlaid as a StateConcurrent with
local time reset to 0; subscripting a None time raises TypeError and an empty
timeline raises IndexError.  Otherwise the request is stored in helping, the task
reset to the initial snapshot and the heuristic switched to WeightedRule of the
message's object_problem. -/
def Agent.consume_message (a : Agent) (m : Message) : Except PyErr Agent :=
  if a.status = Status.fail then
    match m.time with
    | none => Except.error PyErr.typeError
    | some timeline =>
      match timeline.head? with
      | none => Except.error PyErr.indexError
      | some first =>
        let r := timeline.foldl
          (fun (acc : Pos × List (Nat × (Option String × Pos))) event =>
            if acc.1.1 ≠ event.2.1 ∨ acc.1.2 ≠ event.2.2 then
              (event.2, acc.2 ++ [(event.1, (m.object_problem, event.2))])
            else acc)
          (first.2, [])
        Except.ok
          { a with task := { a.task with concurrent := some r.2, t := 0 } }
  else
    Except.ok
      { a with helping := some m
               task := a.init_task
               heuristic := Heur.weightedRule m.object_problem }

/-- The message found by the inbox scan of bdi.Agent.solve: the first message whose
requester equals the agent's name, with its index. -/
def findRequest (name : String) : Nat → List Message → Option (Nat × Message)
  | _, [] => none
  | i, m :: rest =>
    if m.requester = name then some (i, m) else findRequest name (i + 1) rest

/-- The inbox-processing step of bdi.Agent.solve (lines 108-116): when the status is
Fail and the inbox is nonempty, consume the first message addressed to this agent;
afterwards `if to_del:` is false when the found index is 0 — nothing is deleted —
and for a positive index `del inbox[message]` indexes the list with a Message,
raising TypeError. -/
def Agent.solveInbox (a : Agent) (inbox : List Message) :
    Except PyErr (Agent × List Message) :=
  if inbox ≠ [] ∧ a.status = Status.fail then
    match findRequest a.name 0 inbox with
    | none => Except.ok (a, inbox)
    | some im =>
      match a.consume_message im.2 with
      | Except.error e => Except.error e
      | Except.ok a1 =>
        if im.1 = 0 then Except.ok (a1, inbox)
        else Except.error PyErr.typeError
  else Except.ok (a, inbox)

/-- Modelled from the spec: the missing strategy.BestFirstSearch object — the
current leaf, the priority frontier of (priority, tiebreak count, state) entries,
and the monotonic counter. -/
structure Searcher where
  leaf : Task
  frontier : List (Int × Nat × Task)
  count : Nat
deriving DecidableEq, Repr

/-- Modelled from the spec: constructing the search kernel over a task — the leaf
is the scored initial state, the frontier empty, the counter zero. -/
def mkSearcher (task : Task) : Searcher :=
  ⟨task, [], 0⟩

/-- Strict lexicographic order on frontier entries by (priority, count); the
counter is unique so the queue never compares states. -/
def entryLt (a b : Int × Nat × Task) : Bool :=
  a.1 < b.1 || (a.1 == b.1 && a.2.1 < b.2.1)

/-- The least entry of a frontier under entryLt (the heap minimum of the
PriorityQueue); ties in priority are resolved toward the smaller count. -/
def minEntry : List (Int × Nat × Task) → Option (Int × Nat × Task)
  | [] => none
  | e :: rest => some (rest.foldl (fun m x => if entryLt x m then x else m) e)

/-- Remove the first occurrence of an entry from a frontier. -/
def eraseFirst : List (Int × Nat × Task) → (Int × Nat × Task) → List (Int × Nat × Task)
  | [], _ => []
  | x :: xs, e => if x = e then xs else x :: eraseFirst xs e

/-- Modelled from the spec: strategy explore_and_add — expand the leaf, score the
children with the held heuristic, and insert each keyed by (f, incremented count). -/
def Searcher.exploreAndAdd (api : ActionsApi) (heur : Heur) (s : Searcher) : Searcher :=
  (api.explore s.leaf).foldl
    (fun st c =>
      { st with count := st.count + 1
                frontier := st.frontier ++ [(heur.fval c, st.count + 1, c)] })
    s

/-- Modelled from the spec: strategy get_and_remove_leaf — pop the least-priority
entry and make it the leaf. -/
def Searcher.getAndRemoveLeaf (s : Searcher) : Searcher :=
  match minEntry s.frontier with
  | none => s
  | some e => { s with leaf := e.2.2, frontier := eraseFirst s.frontier e }

/-- The body loop of bdi.Agent.search, fuelled: memory check first (raising
ResourceLimit past the ceiling), then explore_and_add, frontier-empty test
(returning no plan), pop, and goal test (returning the walked path and the leaf to
store into the agent's task). -/
def searchLoop (api : ActionsApi) (heur : Heur) (usage mx : Int) :
    Nat → Searcher → Except PyErr (Option (List String) × Option Task)
  | 0, _ => Except.error PyErr.outOfFuel
  | fuel + 1, s =>
    if usage > mx then Except.error PyErr.resourceLimit
    else
      let s1 := s.exploreAndAdd api heur
      if s1.frontier = [] then Except.ok (none, none)
      else
        let s2 := s1.getAndRemoveLeaf
        if api.isGoalState s2.leaf then Except.ok (some (api.bestPath s2.leaf), some s2.leaf)
        else searchLoop api heur usage mx fuel s2

/-- bdi.Agent.search: an initial goal-state leaf returns the empty path at once
(without touching the agent's task); otherwise the loop runs. -/
def agentSearch (api : ActionsApi) (heur : Heur) (usage mx : Int) (fuel : Nat)
    (s : Searcher) : Except PyErr (Option (List String) × Option Task) :=
  if api.isGoalState s.leaf then Except.ok (some [], none)
  else searchLoop api heur usage mx fuel s

/-- bdi.Agent.solve: cached-plan short circuit, inbox processing, a fresh search
kernel over the task, the search, the status update (Ok exactly when a plan — the
empty one included — was returned), and the broadcast.  Returns (path, message,
updated agent, updated inbox). -/
def Agent.solve (api : ActionsApi) (usage mx : Int) (fuel : Nat) (a : Agent)
    (inbox : List Message) :
    Except PyErr (Option (List String) × Option Message × Agent × List Message) :=
  if a.status = Status.ok ∧ a.helping = none then
    match a.broadcast api with
    | Except.error e => Except.error e
    | Except.ok ma => Except.ok (a.saved_solution, ma.1, ma.2, inbox)
  else
    match a.solveInbox inbox with
    | Except.error e => Except.error e
    | Except.ok ai =>
      match agentSearch api ai.1.heuristic usage mx fuel (mkSearcher ai.1.task) with
      | Except.error e => Except.error e
      | Except.ok pt =>
        let a2 := { ai.1 with
                    task := pt.2.getD ai.1.task
                    status := if pt.1 = none then Status.fail else Status.ok
                    saved_solution := pt.1 }
        match a2.broadcast api with
        | Except.error e => Except.error e
        | Except.ok ma => Except.ok (pt.1, ma.1, ma.2, ai.2)

/-- Python float values arising in bdi.Agent.marginal_task_cost: integers and the
positive infinity float("inf"). -/
inductive Cost
  | fin (n : Int)
  | inf
deriving DecidableEq, Repr

/-- Subtraction on Cost as used in marginal_task_cost; only inf minus a finite
value is ever reached there. -/
def Cost.sub : Cost → Cost → Cost
  | Cost.inf, _ => Cost.inf
  | Cost.fin a, Cost.fin b => Cost.fin (a - b)
  | Cost.fin a, Cost.inf => Cost.fin a

/-- Python min on Cost values. -/
def Cost.minC : Cost → Cost → Cost
  | Cost.inf, c => c
  | Cost.fin a, Cost.inf => Cost.fin a
  | Cost.fin a, Cost.fin b => Cost.fin (min a b)

/-- bdi.Agent.marginal_task_cost: unpack the first goal of the broadcasted task
(goal_key is the first character of its first key), return inf on a color
mismatch; otherwise score the subtask in place and read its f as c_ts, merge the
goal into a copy of the agent's task, take the heuristic call's return value —
None, since the rules score in place — as cost, replace the None by inf, and
return min(inf, cost) - c_ts. -/
def Agent.marginal_task_cost (a : Agent) (bt : Task) : Except PyErr Cost :=
  match bt.goals.head? with
  | none => Except.error PyErr.indexError
  | some kv =>
    match kv.2.head? with
    | none => Except.error PyErr.indexError
    | some pc =>
      match kv.1.toList.head? with
      | none => Except.error PyErr.indexError
      | some kc =>
        let goal_key := String.mk [kc]
        let c_union := Cost.inf
        if pc.2 ≠ a.color then Except.ok c_union
        else
          let c_ts := a.heuristic.fval bt
          let joint_task := a.task.addGoal goal_key pc.1 pc.2
          let cost := match a.heuristic.callRet joint_task with
                      | none => c_union
                      | some v => Cost.fin v
          let c_union2 := Cost.minC c_union cost
          Except.ok (c_union2.sub (Cost.fin c_ts))

/-- emergency_aStar.default_heuristic: Manhattan distance. -/
def default_heuristic (a b : Pos) : Int :=
  ((a.1 - b.1).natAbs : Int) + ((a.2 - b.2).natAbs : Int)

/-- The accumulation loops of emergency_aStar.BestFirstSearch.calc_heuristic_for:
for every (goal, box, same-color agent key) triple the box-goal distance is added
to boxGoalCost and the agent-box distance appended to agtBoxCosts. -/
def calcAccum (s : Task) : Int × List Int :=
  (s.getGoalKeys).foldl
    (fun (acc : Int × List Int) k =>
      let goalParams := s.getGoalsByKey k
      let boxParams := s.getBoxesByKey k
      goalParams.foldl
        (fun acc1 gp =>
          boxParams.foldl
            (fun acc2 bp =>
              (s.getAgentsByColor gp.2).foldl
                (fun acc3 ak =>
                  match (s.getAgentsByKey ak).head? with
                  | some e =>
                    (acc3.1 + default_heuristic bp.1 gp.1,
                     acc3.2 ++ [default_heuristic e.1 bp.1])
                  | none => acc3)
                acc2)
            acc1)
        acc)
    (0, [])

/-- emergency_aStar.BestFirstSearch.calc_heuristic_for on one state: run the
accumulation, take the Python min of the agent-box distances — ValueError when the
list is empty — and write h and f = g + h. -/
def calcHeuristicFor (s : Task) : Except PyErr (Int × Int) :=
  match calcAccum s with
  | (_, []) => Except.error PyErr.valueError
  | (boxGoalCost, c :: cs) =>
    let agtBoxCost := cs.foldl min c
    let h := boxGoalCost + agtBoxCost
    Except.ok (h, s.g + h)

/-- The frontier insertions of emergency_aStar.aStarSearch.get_and_remove_leaf:
for each scored child, increment the counter and put (f, count, state). -/
def pushScored (frontier : List (Int × Nat × Task)) (count : Nat)
    (scored : List (Int × Task)) : List (Int × Nat × Task) × Nat :=
  scored.foldl
    (fun acc st => (acc.1 ++ [(st.1, acc.2 + 1, st.2)], acc.2 + 1))
    (frontier, count)

/-- Score a list of explored states with calc_heuristic_for, keeping each state's
f value; the first ValueError aborts the whole call. -/
def scoreAll : List Task → Except PyErr (List (Int × Task))
  | [] => Except.ok []
  | t :: ts =>
    match calcHeuristicFor t with
    | Except.error e => Except.error e
    | Except.ok hf =>
      match scoreAll ts with
      | Except.error e => Except.error e
      | Except.ok rest => Except.ok ((hf.2, t) :: rest)

/-- emergency_aStar.aStarSearch.get_and_remove_leaf: explore the leaf, score the
children, push each with the incremented counter, and pop the least (f, count)
entry as the new leaf; queue.get on an empty frontier blocks. -/
def aStarGetAndRemoveLeaf (api : ActionsApi) (s : Searcher) : Except PyErr Searcher :=
  match scoreAll (api.explore s.leaf) with
  | Except.error e => Except.error e
  | Except.ok scored =>
    let pushed := pushScored s.frontier s.count scored
    match minEntry pushed.1 with
    | none => Except.error PyErr.blocked
    | some e => Except.ok ⟨e.2.2, eraseFirst pushed.1 e, pushed.2⟩

/-- heuristics.dGraph.__call__: after extracting the first agent, box and goal
positions (IndexError when one is missing), the state-scoring call is made through
the unqualified global name of the graph-attribute initializer, which is not
defined at module level, so NameError is raised before h or f is written. -/
def dGraphCall (s : Task) : Except PyErr (Int × Int) :=
  match (s.agents.head?).bind (fun kv => kv.2.head?) with
  | none => Except.error PyErr.indexError
  | some _ =>
    match (s.boxes.head?).bind (fun kv => kv.2.head?) with
    | none => Except.error PyErr.indexError
    | some _ =>
      match (s.goals.head?).bind (fun kv => kv.2.head?) with
      | none => Except.error PyErr.indexError
      | some _ => Except.error PyErr.nameError

/-- One goal iteration of the claimed reading of WeightedRule (the spec's words,
kept for comparison with the source embedding): as EasyRule, but the minimum
box-goal contribution is multiplied by 10 when the goal key equals the weight
case-insensitively. -/
def weightedSpecGoalStep (w : String) (s : Task) (k : String)
    (box_params : List (Pos × String)) (gp : Pos × String) : Int × List Int :=
  let r := box_params.foldl
    (fun acc bp =>
      let st := easyRuleBoxStep s gp.1 gp.2 bp.1
      (acc.1 ++ st.1, acc.2 ++ st.2))
    ([], [])
  (if r.2 = [] then 0
   else
     let bc := listMin r.2
     if pyLower k = pyLower w then bc * 10 else bc,
   r.1)

/-- One goal-key iteration of the claimed reading of WeightedRule. -/
def weightedSpecKeyStep (w : String) (s : Task) (acc : Int × Int × List Int)
    (k : String) : Int × Int × List Int :=
  let goal_params := s.getGoalsByKey k
  let box_params := s.getBoxesByKey k
  let r := goal_params.foldl
    (fun a gp =>
      let st := weightedSpecGoalStep w s k box_params gp
      (a.1 + st.1, a.2 ++ st.2))
    (0, [])
  let agt_box_costs := acc.2.2 ++ r.2
  let agt_box_cost := if agt_box_costs = [] then acc.2.1 else acc.2.1 + listSum agt_box_costs
  (acc.1 + r.1, agt_box_cost, agt_box_costs)

/-- The claimed reading of WeightedRule's h (spec wording: identical to EasyRule
with the case-insensitive 10-fold weighting), for comparison with weightedRuleH. -/
def weightedSpecH (w : String) (s : Task) : Int :=
  let r := (s.getGoalKeys).foldl (weightedSpecKeyStep w s) (0, 0, [])
  r.1 + r.2.1

/-- Tiebreak counters of a frontier are strictly increasing along insertion order. -/
def countsIncreasing (fr : List (Int × Nat × Task)) : Prop :=
  fr.Pairwise (fun x y => x.2.1 < y.2.1)

/-- All tiebreak counters of a frontier are at most the instance counter. -/
def countsBounded (fr : List (Int × Nat × Task)) (c : Nat) : Prop :=
  ∀ e ∈ fr, e.2.1 ≤ c

/-- Non-strict lexicographic order on frontier entries by (priority, count). -/
def entryLe (a b : Int × Nat × Task) : Prop :=
  a.1 < b.1 ∨ (a.1 = b.1 ∧ a.2.1 ≤ b.2.1)

/-- A trivial instantiation of the black-box actions interface, used to evaluate
the embedded code on concrete inputs. -/
def apiTriv : ActionsApi :=
  ⟨fun _ => false, fun _ => [], fun _ => [], fun _ _ => []⟩

/-- As apiTriv but every state is a goal state. -/
def apiGoalTrue : ActionsApi :=
  ⟨fun _ => true, fun _ => [], fun _ => [], fun _ _ => []⟩

/-- A small one-goal task: goal A at (0,0), agent 0 at (0,3), box A at (0,2),
all of color c. -/
def tBase : Task :=
  { goals := [("A", [((0, 0), "c")])]
    agents := [("0", [((0, 3), "c")])]
    boxes := [("A", [((0, 2), "c")])] }

/-- A failed agent over tBase, used for the inbox-processing evaluation. -/
def agentC1 : Agent :=
  { task := tBase, init_task := tBase, heuristic := Heur.easyRule, color := "c"
    name := "0", init_pos := (0, 3), status := Status.fail, helping := none
    saved_solution := none }

/-- A response addressed to agent 0 with a two-event timeline. -/
def msgC1 : Message :=
  ⟨some "B", some "r", "0", Status.ok, some [(0, (1, 1)), (1, (1, 2))]⟩

/-- A response addressed to a different agent. -/
def msgOther : Message :=
  ⟨some "B", some "r", "9", Status.ok, some [(0, (1, 1))]⟩

/-- The agent after consuming msgC1: the changed-position event overlaid as a
concurrent state at local time 0. -/
def agentC1after : Agent :=
  { agentC1 with
    task := { tBase with concurrent := some [(1, (some "B", (1, 2)))], t := 0 } }

/-- A task whose only box has another color (d) and whose explored set traces
agent 0 at (0,1), adjacent to that box. -/
def tC2 : Task :=
  { goals := [("A", [((0, 0), "c")])]
    agents := [("0", [((0, 3), "c")])]
    boxes := [("A", [((0, 2), "d")])]
    explored := [[("0", [((0, 1), "c")])]] }

/-- The help request stored on the failed helper agent. -/
def msgHelp : Message :=
  ⟨some "B", some "d", "7", Status.ok, some [(0, (5, 5))]⟩

/-- A failed agent that is also helping: both broadcast branches apply. -/
def agentC2 : Agent :=
  { task := tC2, init_task := tC2, heuristic := Heur.easyRule, color := "c"
    name := "0", init_pos := (0, 3), status := Status.fail, helping := some msgHelp
    saved_solution := none }

/-- The message agentC2's broadcast actually emits: the success response built
from the stored help request (not the SOS). -/
def msgC2res : Message :=
  ⟨some "B", some "d", "7", Status.fail, some []⟩

/-- The SOS agentC2 would emit, naming the adjacent other-color box A. -/
def sosC2msg : Message :=
  ⟨some "A", some "d", "0", Status.fail, none⟩

/-- agentC2 after its broadcast: exploration forgotten, helping cleared. -/
def agentC2post : Agent :=
  { agentC2 with task := tC2.forget_exploration, helping := none }

/-- A single-goal broadcasted subtask of color c: goal B at (5,5), own agent at
(5,7), box B at (5,6). -/
def btC3 : Task :=
  { goals := [("B", [((5, 5), "c")])]
    agents := [("0", [((5, 7), "c")])]
    boxes := [("B", [((5, 6), "c")])] }

/-- An idle color-c agent over tBase, candidate for the subtask btC3. -/
def agentC3 : Agent :=
  { task := tBase, init_task := tBase, heuristic := Heur.easyRule, color := "c"
    name := "0", init_pos := (0, 3), status := Status.init, helping := none
    saved_solution := none }

/-- A state with one goal, box and agent of key B used against WeightedRule. -/
def sC5 : Task :=
  { goals := [("B", [((0, 0), "c")])]
    agents := [("0", [((0, 3), "c")])]
    boxes := [("B", [((0, 2), "c")])] }

/-- An idle agent over sC5 that will be asked to help with box B. -/
def agentC5helper : Agent :=
  { task := sC5, init_task := sC5, heuristic := Heur.easyRule, color := "c"
    name := "0", init_pos := (0, 3), status := Status.ok, helping := none
    saved_solution := none }

/-- The SOS received by agentC5helper, requesting help with the upper-case box B. -/
def msgC5 : Message :=
  ⟨some "B", some "c", "1", Status.fail, none⟩

/-- tBase with a nonzero path cost g, used against the emergency kernel. -/
def tC6 : Task :=
  { goals := [("A", [((0, 0), "c")])]
    agents := [("0", [((0, 3), "c")])]
    boxes := [("A", [((0, 2), "c")])]
    g := 3 }

/-- A failed agent whose task has no box of another color: _identify_problem
falls through and returns None. -/
def agentC8 : Agent :=
  { task := tBase, init_task := tBase, heuristic := Heur.easyRule, color := "c"
    name := "0", init_pos := (0, 3), status := Status.fail, helping := none
    saved_solution := none }

/-- A task with no goals but one agent, for the Agent construction boundary. -/
def tEmptyGoals : Task :=
  { goals := [], agents := [("0", [((0, 3), "c")])], boxes := [] }

/-- Claim C1: the claim states that Agent.solve removes the consumed inbox message
at the found integer index, in particular at index 0.  The code does neither: at
index 0 the `if to_del:` test is false and the message stays in the inbox, and at
a positive index the deletion indexes the list with the Message object and raises
TypeError.  This theorem evaluates the embedded inbox step on both shapes. -/
theorem claim1_thm :
    Agent.solveInbox agentC1 [msgC1] = Except.ok (agentC1after, [msgC1]) ∧
    Agent.solveInbox agentC1 [msgOther, msgC1] = Except.error PyErr.typeError :=
  ⟨by decide, by decide⟩

/-- Claim C2 counterexample: a failed agent that is helping does not broadcast its
SOS — the success response built from the help request overwrites it.  At agentC2
the SOS would name box A, but the emitted message is the response about box B. -/
theorem claim2_cex :
    Agent.broadcast apiTriv agentC2 = Except.ok (some msgC2res, agentC2post) ∧
    Agent.sos agentC2 = Except.ok sosC2msg ∧
    msgC2res ≠ sosC2msg :=
  ⟨by decide, by decide, by decide⟩

/-- Claim C2 amended: broadcast emits at most one message; when the status is Fail
the SOS is computed and the exploration reset, but when the agent is also helping
the success response (carrying the bestPath timeline of the helped object and the
agent's current status) overwrites the SOS and the helping flag is cleared. -/
theorem claim2_amended (api : ActionsApi) (a : Agent) (m : Message)
    (pr : String × String) (hst : a.status = Status.fail)
    (hh : a.helping = some m) (hid : a.identify_problem = some pr) :
    Agent.broadcast api a =
      Except.ok
        (some ⟨m.object_problem, m.color, m.requester, a.status,
               some (api.bestPathFmt a.task.forget_exploration m.object_problem)⟩,
         { a with task := a.task.forget_exploration, helping := none }) := by
  obtain ⟨tk, it, hr, col, nm, ip, st, hp, ss⟩ := a
  replace hst : st = Status.fail := hst
  replace hh : hp = some m := hh
  subst hst
  subst hh
  simp only [Agent.broadcast, Agent.sos, Agent.send_success, mkMessage,
    Task.forget_exploration] at hid ⊢
  rw [hid]
  simp

/-- Claim C2 witness: the amended broadcast behaviour at the concrete failed and
helping agent agentC2. -/
theorem claim2_witness :
    Agent.broadcast apiTriv agentC2 =
      Except.ok
        (some ⟨msgHelp.object_problem, msgHelp.color, msgHelp.requester,
               agentC2.status,
               some (apiTriv.bestPathFmt agentC2.task.forget_exploration
                      msgHelp.object_problem)⟩,
         { agentC2 with task := agentC2.task.forget_exploration, helping := none }) :=
  claim2_amended apiTriv agentC2 msgHelp ("A", "d") rfl rfl (by decide)

/-- Claim C3: the claim states that marginal_task_cost returns c_joint minus c_sub
for a color-matching subtask.  The code instead takes the heuristic call's return
value — always None — as the joint cost, so the result is inf minus c_ts, which is
inf.  At this input the claimed value would be the finite 20 - 10 = 10. -/
theorem claim3_thm :
    agentC3.marginal_task_cost btC3 = Except.ok Cost.inf ∧
    easyRuleF btC3 = 10 ∧
    easyRuleF (agentC3.task.addGoal "B" (5, 5) "c") = 20 ∧
    Cost.fin (easyRuleF (agentC3.task.addGoal "B" (5, 5) "c") - easyRuleF btC3) ≠
      Cost.inf :=
  ⟨by decide, by decide, by decide, by decide⟩

/-- Claim C4 counterexample: with memory usage above the ceiling, Agent.solve does
not return a plan-less result with status Fail — the ResourceLimit raised inside
search propagates out of solve. -/
theorem claim4_cex :
    Agent.solve apiTriv 2049 2048 1 agentC3 [] = Except.error PyErr.resourceLimit :=
  by decide

/-- Claim C4 amended: when the memory check exceeds the ceiling during the search
of a freshly started agent, search raises ResourceLimit and the exception escapes
Agent.solve uncaught; solve neither returns a plan nor updates the status. -/
theorem claim4_amended (api : ActionsApi) (a : Agent) (inbox : List Message)
    (usage mx : Int) (fuel : Nat) (hst : a.status = Status.init)
    (hgoal : api.isGoalState a.task = false) (hmem : usage > mx) :
    Agent.solve api usage mx (fuel + 1) a inbox = Except.error PyErr.resourceLimit := by
  simp [Agent.solve, Agent.solveInbox, agentSearch, mkSearcher, searchLoop,
    hst, hgoal, hmem]

/-- Claim C4 witness: the amended behaviour at a concrete over-ceiling usage. -/
theorem claim4_witness :
    Agent.solve apiTriv 3000 2048 1 agentC3 [] = Except.error PyErr.resourceLimit :=
  claim4_amended apiTriv agentC3 [] 3000 2048 0 rfl rfl (by decide)

/-- Claim C7: for every state with at least one agent, box and goal, the dGraph
call raises NameError — the graph-attribute initializer is invoked through an
undefined global name — instead of scoring the state. -/
theorem claim7_thm (s : Task) (a1 b1 g1 : Pos × String)
    (ha : (s.agents.head?).bind (fun kv => kv.2.head?) = some a1)
    (hb : (s.boxes.head?).bind (fun kv => kv.2.head?) = some b1)
    (hg : (s.goals.head?).bind (fun kv => kv.2.head?) = some g1) :
    dGraphCall s = Except.error PyErr.nameError := by
  simp [dGraphCall, ha, hb, hg]

/-- Claim C7 witness: the NameError at the concrete one-agent one-box one-goal
state tBase. -/
theorem claim7_witness : dGraphCall tBase = Except.error PyErr.nameError :=
  claim7_thm tBase ((0, 3), "c") ((0, 2), "c") ((0, 0), "c") rfl rfl rfl

/-- Claim C8: the claim states that a failed agent whose problem identification
finds nothing still broadcasts an SOS with object_problem None.  The code instead
raises TypeError while unpacking the None returned by _identify_problem. -/
theorem claim8_thm :
    Agent.identify_problem agentC8 = none ∧
    Agent.broadcast apiTriv agentC8 = Except.error PyErr.typeError :=
  ⟨by decide, by decide⟩

/-- Claim C9: when the initial leaf is already a goal state, Agent.search returns
the empty action list, and the status update in Agent.solve then sets the status
to Ok — the empty plan counts as a found plan, not as failure. -/
theorem claim9_thm (api : ActionsApi) (usage mx : Int) (fuel : Nat) (a : Agent)
    (inbox : List Message) (hst : a.status = Status.init) (hh : a.helping = none)
    (hgoal : api.isGoalState a.task = true) :
    agentSearch api a.heuristic usage mx fuel (mkSearcher a.task) =
      Except.ok (some [], none) ∧
    Agent.solve api usage mx fuel a inbox =
      Except.ok (some [], none,
        { a with status := Status.ok, saved_solution := some [] }, inbox) := by
  obtain ⟨tk, it, hr, col, nm, ip, st, hp, ss⟩ := a
  replace hst : st = Status.init := hst
  replace hh : hp = none := hh
  replace hgoal : api.isGoalState tk = true := hgoal
  subst hst
  subst hh
  constructor
  · simp [agentSearch, mkSearcher, hgoal]
  · simp [Agent.solve, Agent.solveInbox, agentSearch, mkSearcher, hgoal,
      Agent.broadcast]

/-- Claim C9 witness: the empty plan and Ok status at the concrete initial-goal
agent agentC3 under an all-goal actions interface. -/
theorem claim9_witness :
    agentSearch apiGoalTrue agentC3.heuristic 0 2048 5 (mkSearcher agentC3.task) =
      Except.ok (some [], none) ∧
    Agent.solve apiGoalTrue 0 2048 5 agentC3 [] =
      Except.ok (some [], none,
        { agentC3 with status := Status.ok, saved_solution := some [] }, []) :=
  claim9_thm apiGoalTrue 0 2048 5 agentC3 [] rfl rfl rfl

/-- Claim C10: Agent construction takes the color from the first goal entry, the
name from the first agent key and the initial position from the first agent entry,
with Init status, no helping flag and no saved solution; a task with empty goals
or empty agents raises IndexError. -/
theorem claim10_thm (t : Task) (hopt : Option Heur) :
    (∀ gk gp gc gl ak ap ac al,
        t.goals.head? = some (gk, (gp, gc) :: gl) →
        t.agents.head? = some (ak, (ap, ac) :: al) →
        mkAgent t hopt =
          Except.ok
            { task := t, init_task := t, heuristic := hopt.getD Heur.easyRule
              color := gc, name := ak, init_pos := ap, status := Status.init
              helping := none, saved_solution := none }) ∧
    (t.goals = [] ∨ t.agents = [] → mkAgent t hopt = Except.error PyErr.indexError) := by
  constructor
  · intro gk gp gc gl ak ap ac al h1 h2
    simp [mkAgent, h1, h2]
  · intro h
    rcases h with h | h
    · simp [mkAgent, h]
    · cases hg : t.goals.head? with
      | none => simp [mkAgent, hg]
      | some kv =>
        cases hk : kv.2.head? with
        | none => simp [mkAgent, hg, hk]
        | some gfirst => simp [mkAgent, hg, hk, h]

/-- Under the agent-color guard, one EasyRule box iteration coincides with one
WeightedRule box iteration. -/
theorem boxStep_eq (s : Task) (gpos : Pos) (gcol : String) (bpos : Pos)
    (h : (Task.agentColor s).contains gcol = true) :
    easyRuleBoxStep s gpos gcol bpos = weightedRuleBoxStep s gpos gcol bpos := by
  unfold easyRuleBoxStep weightedRuleBoxStep
  rw [if_pos h]

/-- When the key does not match the weight after lower-casing and the goal color
passes the agent-color guard, the WeightedRule goal iteration equals EasyRule's. -/
theorem goalStep_eq (w : Option String) (s : Task) (k : String)
    (box_params : List (Pos × String)) (gp : Pos × String)
    (hc : (Task.agentColor s).contains gp.2 = true)
    (hw : some (pyLower k) ≠ w) :
    weightedRuleGoalStep w s k box_params gp = easyRuleGoalStep s box_params gp := by
  simp only [weightedRuleGoalStep, easyRuleGoalStep]
  have hfold :
      box_params.foldl
        (fun acc bp =>
          let st := weightedRuleBoxStep s gp.1 gp.2 bp.1
          (acc.1 ++ st.1, acc.2 ++ st.2))
        (([] : List Int), ([] : List Int)) =
      box_params.foldl
        (fun acc bp =>
          let st := easyRuleBoxStep s gp.1 gp.2 bp.1
          (acc.1 ++ st.1, acc.2 ++ st.2))
        (([] : List Int), ([] : List Int)) := by
    apply List.foldl_ext
    intro a b _
    rw [boxStep_eq s gp.1 gp.2 b.1 hc]
  rw [hfold]
  simp [hw]

/-- When the key does not match the weight after lower-casing and all goal entries
of the key pass the agent-color guard, the WeightedRule key iteration equals
EasyRule's for every accumulator. -/
theorem keyStep_eq (w : Option String) (s : Task) (k : String)
    (hw : some (pyLower k) ≠ w)
    (hc : ∀ gp ∈ s.getGoalsByKey k, (Task.agentColor s).contains gp.2 = true)
    (acc : Int × Int × List Int) :
    weightedRuleKeyStep w s acc k = easyRuleKeyStep s acc k := by
  simp only [weightedRuleKeyStep, easyRuleKeyStep]
  have hfold :
      (s.getGoalsByKey k).foldl
        (fun a gp =>
          let st := weightedRuleGoalStep w s k (s.getBoxesByKey k) gp
          (a.1 + st.1, a.2 ++ st.2))
        ((0 : Int), ([] : List Int)) =
      (s.getGoalsByKey k).foldl
        (fun a gp =>
          let st := easyRuleGoalStep s (s.getBoxesByKey k) gp
          (a.1 + st.1, a.2 ++ st.2))
        ((0 : Int), ([] : List Int)) := by
    apply List.foldl_ext
    intro a gp hgp
    rw [goalStep_eq w s k (s.getBoxesByKey k) gp (hc gp hgp) hw]
  rw [hfold]

/-- Claim C5 counterexample: the helper asked (through consume_message) to clear
the upper-case box B switches to WeightedRule with weight B, but the comparison
lower-cases only the goal key, so no goal is ever weighted: the computed h equals
EasyRule's 3, while the claimed case-insensitive reading yields 21. -/
theorem claim5_cex :
    Agent.consume_message agentC5helper msgC5 =
      Except.ok { agentC5helper with
                  helping := some msgC5,
                  heuristic := Heur.weightedRule (some "B") } ∧
    weightedRuleH (some "B") sC5 = 3 ∧
    easyRuleH sC5 = 3 ∧
    weightedSpecH "B" sC5 = 21 ∧
    ¬ (weightedRuleH (some "B") sC5 = weightedSpecH "B" sC5) :=
  ⟨by decide, by decide, by decide, by decide, by decide⟩

/-- Claim C5 amended: WeightedRule multiplies the minimum box-goal contribution by
10 only for goal keys whose lower-casing equals the stored weight exactly; when no
key matches (in particular for any upper-case weight) and every goal color belongs
to some agent, WeightedRule computes the same h as EasyRule. -/
theorem claim5_amended (w : Option String) (s : Task)
    (hw : ∀ k ∈ s.getGoalKeys, some (pyLower k) ≠ w)
    (hc : ∀ k ∈ s.getGoalKeys, ∀ gp ∈ s.getGoalsByKey k,
            (Task.agentColor s).contains gp.2 = true) :
    weightedRuleH w s = easyRuleH s := by
  simp only [weightedRuleH, easyRuleH]
  have hfold : (s.getGoalKeys).foldl (weightedRuleKeyStep w s) (0, 0, []) =
      (s.getGoalKeys).foldl (easyRuleKeyStep s) (0, 0, []) := by
    apply List.foldl_ext
    intro acc k hk
    exact keyStep_eq w s k (hw k hk) (hc k hk) acc
  rw [hfold]

/-- Claim C5 witness: on sC5 with the upper-case weight B, WeightedRule computes
exactly EasyRule's h. -/
theorem claim5_witness : weightedRuleH (some "B") sC5 = easyRuleH sC5 :=
  claim5_amended (some "B") sC5 (by decide) (by decide)

/-- Reflexivity of the non-strict entry order. -/
theorem entryLe_refl (a : Int × Nat × Task) : entryLe a a :=
  Or.inr ⟨rfl, le_refl _⟩

/-- Transitivity of the non-strict entry order. -/
theorem entryLe_trans (a b c : Int × Nat × Task) (h1 : entryLe a b)
    (h2 : entryLe b c) : entryLe a c := by
  unfold entryLe at *
  rcases h1 with h1 | ⟨e1, l1⟩ <;> rcases h2 with h2 | ⟨e2, l2⟩
  · exact Or.inl (lt_trans h1 h2)
  · exact Or.inl (by omega)
  · exact Or.inl (by omega)
  · exact Or.inr ⟨by omega, by omega⟩

/-- The strict entry order implies the non-strict one. -/
theorem entryLt_imp_le (a b : Int × Nat × Task) (h : entryLt a b = true) :
    entryLe a b := by
  unfold entryLt at h
  simp only [Bool.or_eq_true, Bool.and_eq_true, decide_eq_true_eq, beq_iff_eq] at h
  rcases h with h | ⟨he, hl⟩
  · exact Or.inl h
  · exact Or.inr ⟨he, le_of_lt hl⟩

/-- Failure of the strict entry order gives the reverse non-strict order. -/
theorem not_entryLt_le (a b : Int × Nat × Task) (h : ¬ entryLt a b = true) :
    entryLe b a := by
  unfold entryLt at h
  simp only [Bool.or_eq_true, Bool.and_eq_true, decide_eq_true_eq, beq_iff_eq,
    not_or, not_and] at h
  obtain ⟨h1, h2⟩ := h
  rcases lt_or_eq_of_le (not_lt.mp h1) with hlt | heq
  · exact Or.inl hlt
  · exact Or.inr ⟨heq, not_lt.mp (h2 heq.symm)⟩

/-- The running minimum of the frontier fold is the seed or one of the entries. -/
theorem foldMin_mem (l : List (Int × Nat × Task)) :
    ∀ e : Int × Nat × Task,
      l.foldl (fun m x => if entryLt x m then x else m) e = e ∨
      l.foldl (fun m x => if entryLt x m then x else m) e ∈ l := by
  induction l with
  | nil => intro e; exact Or.inl rfl
  | cons x xs ih =>
    intro e
    simp only [List.foldl_cons]
    by_cases hx : entryLt x e = true
    · rw [if_pos hx]
      rcases ih x with h | h
      · rw [h]
        exact Or.inr (List.mem_cons_self x xs)
      · exact Or.inr (List.mem_cons_of_mem x h)
    · rw [if_neg hx]
      rcases ih e with h | h
      · exact Or.inl h
      · exact Or.inr (List.mem_cons_of_mem x h)

/-- The running minimum of the frontier fold is a lower bound of the seed and all
entries. -/
theorem foldMin_le (l : List (Int × Nat × Task)) :
    ∀ e y : Int × Nat × Task, (y = e ∨ y ∈ l) →
      entryLe (l.foldl (fun m x => if entryLt x m then x else m) e) y := by
  induction l with
  | nil =>
    intro e y hy
    rcases hy with rfl | hy
    · exact entryLe_refl y
    · cases hy
  | cons x xs ih =>
    intro e y hy
    simp only [List.foldl_cons]
    by_cases hx : entryLt x e = true
    · rw [if_pos hx]
      rcases hy with rfl | hy
      · exact entryLe_trans _ x _ (ih x x (Or.inl rfl)) (entryLt_imp_le x _ hx)
      · rcases List.mem_cons.mp hy with rfl | hy
        · exact ih _ _ (Or.inl rfl)
        · exact ih x y (Or.inr hy)
    · rw [if_neg hx]
      rcases hy with rfl | hy
      · exact ih _ _ (Or.inl rfl)
      · rcases List.mem_cons.mp hy with rfl | hy
        · exact entryLe_trans _ e _ (ih e e (Or.inl rfl)) (not_entryLt_le _ e hx)
        · exact ih e y (Or.inr hy)

/-- Claim C6 amended: in the emergency A-star kernel, every scored state carries
priority f = g + h (there is no factor 5 on h); the frontier insertions keep the
tiebreak counters strictly increasing and bounded by the instance counter; and the
popped minimum entry is a frontier member that is least in (priority, counter)
lexicographic order, so among equal priorities the least — i.e. first-inserted —
counter is popped first. -/
theorem claim6_amended :
    (∀ s h f, calcHeuristicFor s = Except.ok (h, f) → f = s.g + h) ∧
    (∀ fr c scored, countsIncreasing fr → countsBounded fr c →
        countsIncreasing (pushScored fr c scored).1 ∧
        countsBounded (pushScored fr c scored).1 (pushScored fr c scored).2) ∧
    (∀ fr m, minEntry fr = some m → m ∈ fr ∧ ∀ y ∈ fr, entryLe m y) := by
  refine ⟨?_, ?_, ?_⟩
  · intro s h f hok
    unfold calcHeuristicFor at hok
    rcases hacc : calcAccum s with ⟨bg, l⟩
    rw [hacc] at hok
    cases l with
    | nil => cases hok
    | cons c cs =>
      simp only [Except.ok.injEq, Prod.mk.injEq] at hok
      rw [← hok.1, ← hok.2]
  · intro fr c scored
    induction scored generalizing fr c with
    | nil =>
      intro hinc hbnd
      exact ⟨hinc, hbnd⟩
    | cons st rest ih =>
      intro hinc hbnd
      have hstep : pushScored fr c (st :: rest) =
          pushScored (fr ++ [(st.1, c + 1, st.2)]) (c + 1) rest := rfl
      rw [hstep]
      apply ih
      · unfold countsIncreasing at *
        rw [List.pairwise_append]
        refine ⟨hinc, by simp, ?_⟩
        intro a ha b hb
        simp only [List.mem_singleton] at hb
        subst hb
        exact Nat.lt_succ_of_le (hbnd a ha)
      · intro e he
        rcases List.mem_append.mp he with he | he
        · exact Nat.le_succ_of_le (hbnd e he)
        · simp only [List.mem_singleton] at he
          subst he
          exact le_refl _
  · intro fr m hmin
    cases fr with
    | nil => cases hmin
    | cons e rest =>
      unfold minEntry at hmin
      injection hmin with hmin
      constructor
      · rcases foldMin_mem rest e with h | h
        · rw [← hmin, h]
          exact List.mem_cons_self e rest
        · rw [← hmin]
          exact List.mem_cons_of_mem e h
      · intro y hy
        rw [← hmin]
        rcases List.mem_cons.mp hy with rfl | hy
        · exact foldMin_le rest _ _ (Or.inl rfl)
        · exact foldMin_le rest _ _ (Or.inr hy)

/-- Claim C6 witness: the amended kernel facts at the concrete state tC6 — its f
is g + h = 3 + 3, the single insertion keeps counters increasing, and the inserted
entry is in the frontier. -/
theorem claim6_witness :
    ((6 : Int) = tC6.g + 3) ∧
    countsIncreasing (pushScored [] 0 [(6, tC6)]).1 ∧
    ((6, 1, tC6) ∈ (pushScored [] 0 [(6, tC6)]).1) :=
  ⟨claim6_amended.1 tC6 3 6 (by decide),
   (claim6_amended.2.1 [] 0 [(6, tC6)] List.Pairwise.nil
      (by intro a ha; cases ha)).1,
   (claim6_amended.2.2 (pushScored [] 0 [(6, tC6)]).1 (6, 1, tC6) (by decide)).1⟩

/-- Claim C6 counterexample: the emergency kernel scores tC6 with f = 6 = g + h
and inserts it with that key, not with g + 5 times h = 18. -/
theorem claim6_cex :
    calcHeuristicFor tC6 = Except.ok (3, 6) ∧
    pushScored [] 0 [(6, tC6)] = ([(6, 1, tC6)], 1) ∧
    ¬ ((6 : Int) = tC6.g + 5 * 3) :=
  ⟨by decide, by decide, by decide⟩

/-- Claim C10 witness: construction on the populated task tBase and the
IndexError on the goal-less task tEmptyGoals. -/
theorem claim10_witness :
    mkAgent tBase none =
      Except.ok
        { task := tBase, init_task := tBase, heuristic := Heur.easyRule
          color := "c", name := "0", init_pos := (0, 3), status := Status.init
          helping := none, saved_solution := none } ∧
    mkAgent tEmptyGoals none = Except.error PyErr.indexError :=
  ⟨(claim10_thm tBase none).1 "A" (0, 0) "c" [] "0" (0, 3) "c" [] rfl rfl,
   (claim10_thm tEmptyGoals none).2 (Or.inl rfl)⟩

end MultiSokoban
